import Mathlib

/-!
# Verification of pydle's scheduling substrate and IRCv3.1 capability handlers

A shallow embedding, in Lean 4, of the two source files of the repository:

* `pydle/async.py` — the `EventLoop` wrapper (futures, immediate / delayed /
  periodic scheduling, timeout-guarded future callbacks, proxied connection
  setup);
* `pydle/features/ircv3_1.py` — the `IRCv3_1Support` mixin (capability-gated
  handlers for `ACCOUNT`, `AWAY` and extended `JOIN` messages, and the
  `_create_user` override).

Python dictionaries are modelled as association lists, user records as
structures of optional fields (`none` = the key is absent from the record
dict), and fallible Python code as `Except PyError`.  Collaborators that live
outside these two files (the base client, the `protocol` module) are modelled
from the specification, and say so in their doc comments.
-/

namespace Pydle

/-- The Python exception classes that the embedded code can raise. -/
inductive PyError where
  | indexError
  | valueError
  | keyError
  | attributeError
  | nameError
  | typeError
  | cancelledError
  | generatorExit
  | timeoutError
deriving DecidableEq, Repr

instance {ε α : Type} [DecidableEq ε] [DecidableEq α] : DecidableEq (Except ε α) :=
  fun a b =>
    match a, b with
    | Except.ok x, Except.ok y =>
      match decEq x y with
      | isTrue h => isTrue (by rw [h])
      | isFalse h => isFalse (fun hc => h (by cases hc; rfl))
    | Except.error x, Except.error y =>
      match decEq x y with
      | isTrue h => isTrue (by rw [h])
      | isFalse h => isFalse (fun hc => h (by cases hc; rfl))
    | Except.ok _, Except.error _ => isFalse (fun hc => by cases hc)
    | Except.error _, Except.ok _ => isFalse (fun hc => by cases hc)

/-! ## Association lists (Python `dict` with insertion order) -/

/-- `k in d` for a Python dict modelled as an association list. -/
def alistContains [DecidableEq κ] (d : List (κ × α)) (k : κ) : Bool :=
  match d with
  | [] => false
  | (k', _) :: rest => k' = k || alistContains rest k

/-- `d[k]` as an `Option` (lookup of the first binding of `k`). -/
def alistGet [DecidableEq κ] (d : List (κ × α)) (k : κ) : Option α :=
  match d with
  | [] => none
  | (k', v') :: rest => if k' = k then some v' else alistGet rest k

/-- `d[k] = v`: replace the first binding of `k`, or append a new one. -/
def alistSet [DecidableEq κ] (d : List (κ × α)) (k : κ) (v : α) : List (κ × α) :=
  match d with
  | [] => [(k, v)]
  | (k', v') :: rest => if k' = k then (k, v) :: rest else (k', v') :: alistSet rest k v

theorem alistGet_set_self [DecidableEq κ] (d : List (κ × α)) (k : κ) (v : α) :
    alistGet (alistSet d k v) k = some v := by
  induction d with
  | nil => simp [alistSet, alistGet]
  | cons p rest ih =>
    by_cases h : p.1 = k
    · simp [alistSet, alistGet, h]
    · simp [alistSet, alistGet, h, ih]

theorem alistContains_set_self [DecidableEq κ] (d : List (κ × α)) (k : κ) (v : α) :
    alistContains (alistSet d k v) k = true := by
  induction d with
  | nil => simp [alistSet, alistContains]
  | cons p rest ih =>
    by_cases h : p.1 = k
    · simp [alistSet, alistContains, h]
    · simp [alistSet, alistContains, h, ih]

theorem alistContains_get [DecidableEq κ] (d : List (κ × α)) (k : κ)
    (h : alistContains d k = true) : ∃ v, alistGet d k = some v := by
  induction d with
  | nil => simp [alistContains] at h
  | cons p rest ih =>
    by_cases hk : p.1 = k
    · exact ⟨p.2, by simp [alistGet, hk]⟩
    · simp [alistContains, hk] at h
      obtain ⟨v, hv⟩ := ih h
      exact ⟨v, by simp [alistGet, hk, hv]⟩

/-! ## Data model for `ircv3_1.py` -/

/-- A parsed IRC message: `{source, command, params}` (spec §6). -/
structure Message where
  source : String
  command : String
  params : List String
deriving DecidableEq, Repr

/-- A user record (`self.users[nick]`, a Python dict).  An outer `none` means
the key is absent from the record; `some none` means the key is present and
bound to Python `None`. -/
structure User where
  username : Option (Option String) := none
  hostname : Option (Option String) := none
  account : Option (Option String) := none
  away : Option Bool := none
  away_message : Option (Option String) := none
  realname : Option (Option String) := none
deriving DecidableEq, Repr

/-- The part of the client state `IRCv3_1Support`'s handlers read and write:
the capability registry `self._capabilities` and the user directory
`self.users`. -/
structure ClientState where
  capabilities : List (String × Bool)
  users : List (String × User)
deriving DecidableEq, Repr

/-- The test `'cap' in self._capabilities and self._capabilities['cap']`. -/
def capEnabled (st : ClientState) (cap : String) : Bool :=
  alistContains st.capabilities cap && (alistGet st.capabilities cap).getD false

/-- `NO_ACCOUNT = '*'` (ircv3_1.py line 10). -/
def NO_ACCOUNT : String := "*"

/-- Split a character list at the first occurrence of `c`: the part before,
and (when `c` occurs) the part after. -/
def breakAt (c : Char) : List Char → List Char × Option (List Char)
  | [] => ([], none)
  | x :: xs =>
    if x = c then ([], some xs)
    else
      let r := breakAt c xs
      (x :: r.1, r.2)

/-- Modelled from the spec: the external helper `protocol.parse_user(source)`
(not under the two source files), which splits a message source of the form
`nick!user@host` into `(nick, user, host)`; the user and host components are
`None` when their separators are missing. -/
def parse_user (source : String) : String × Option String × Option String :=
  match breakAt '!' source.data with
  | (n, none) => (⟨n⟩, none, none)
  | (n, some rest) =>
    match breakAt '@' rest with
    | (u, none) => (⟨n⟩, some ⟨u⟩, none)
    | (u, some h) => (⟨n⟩, some ⟨u⟩, some ⟨h⟩)

/-- Modelled from the spec: the base client's `_sync_user(nick, user, host)`,
which "idempotently ensures a user record's identity fields are current"
(spec §6).  It updates the identity fields of an existing record; record
creation is the base client's separate concern and is not performed here. -/
def _sync_user (st : ClientState) (nick : String) (user host : Option String) :
    ClientState :=
  match alistGet st.users nick with
  | none => st
  | some u =>
    let u' : User := { u with username := some user, hostname := some host }
    { st with users := alistSet st.users nick u' }

/-- `self.users[nick][...] = ...`: update an existing record through a field
update function; a missing nick raises `KeyError` as in Python. -/
def setUserField (st : ClientState) (nick : String) (f : User → User) :
    Except PyError ClientState :=
  match alistGet st.users nick with
  | none => Except.error PyError.keyError
  | some u => Except.ok { st with users := alistSet st.users nick (f u) }

/-- Modelled from the spec: `_construct_message(command, params, source)` of the
base client builds a message value from a command, a parameter sequence and a
source (spec §6).  At its one call site in `on_raw_join` the single
channel-list string is passed as the sole parameter. -/
def _construct_message (command : String) (params : List String) (source : String) :
    Message :=
  { source := source, command := command, params := params }

/-- Modelled from the spec: the base client's JOIN handler reached by
`super().on_raw_join(...)`.  It performs channel-membership bookkeeping, which
in particular creates a user record when the joining nickname first becomes
known (spec §3: records are "created by the base client when a nickname first
becomes known (e.g., on JOIN)").  Channel bookkeeping itself is outside the
modelled state. -/
def base_on_raw_join (st : ClientState) (msg : Message) : ClientState :=
  let nick := (parse_user msg.source).1
  if alistContains st.users nick then st
  else { st with users := alistSet st.users nick {} }

/-- Modelled from the spec: the base client's `_create_user(nickname)` reached
by `super()._create_user(...)`, which creates a bare user record for a
nickname when it first becomes known (spec §3, §6). -/
def base_create_user (st : ClientState) (nickname : String) : ClientState :=
  if alistContains st.users nickname then st
  else { st with users := alistSet st.users nickname {} }

/-- What an `IRCv3_1Support` message handler produced: the updated state, the
`_sync_user` calls it made, and the messages it delegated to `super()`'s
handler. -/
structure HandlerOut where
  state : ClientState
  synced : List (String × Option String × Option String)
  delegated : List Message
deriving DecidableEq, Repr

/-- `IRCv3_1Support._create_user` (ircv3_1.py lines 17–20).  The second
disjunct of the guard reads `self._capabilites['extended-join']`: the
attribute name is misspelled (the real attribute is `_capabilities`), so
whenever that operand is evaluated — i.e. whenever account-notify is not
enabled but `'extended-join' in self._capabilities` holds — the lookup raises
`AttributeError`. -/
def _create_user (st : ClientState) (nickname : String) : Except PyError ClientState :=
  let st1 := base_create_user st nickname
  if capEnabled st1 "account-notify" then
    setUserField st1 nickname (fun u => { u with account := some none })
  else if alistContains st1.capabilities "extended-join" then
    Except.error PyError.attributeError
  else
    Except.ok st1

/-- `IRCv3_1Support.on_raw_account` (ircv3_1.py lines 48–62).  Mirrors the
source's statement order: capability guard, `parse_user`, `params[0]`,
`nick not in self.users` guard, `_sync_user`, sentinel mapping, assignment. -/
def on_raw_account (st : ClientState) (message : Message) :
    Except PyError HandlerOut :=
  if capEnabled st "account-notify" = false then
    Except.ok ⟨st, [], []⟩
  else
    let p := parse_user message.source
    let nick := p.1
    match message.params with
    | [] => Except.error PyError.indexError
    | account :: _ =>
      if alistContains st.users nick = false then
        Except.ok ⟨st, [], []⟩
      else
        let st1 := _sync_user st nick p.2.1 p.2.2
        let acct : Option String := if account = NO_ACCOUNT then none else some account
        match setUserField st1 nick (fun u => { u with account := some acct }) with
        | Except.error e => Except.error e
        | Except.ok st2 => Except.ok ⟨st2, [(nick, p.2.1, p.2.2)], []⟩

/-- `IRCv3_1Support.on_raw_away` (ircv3_1.py lines 64–75). -/
def on_raw_away (st : ClientState) (message : Message) :
    Except PyError HandlerOut :=
  if capEnabled st "away-notify" = false then
    Except.ok ⟨st, [], []⟩
  else
    let p := parse_user message.source
    let nick := p.1
    if alistContains st.users nick = false then
      Except.ok ⟨st, [], []⟩
    else
      let st1 := _sync_user st nick p.2.1 p.2.2
      match setUserField st1 nick
          (fun u => { u with away := some (decide (0 < message.params.length)) }) with
      | Except.error e => Except.error e
      | Except.ok st2 =>
        match setUserField st2 nick
            (fun u => { u with away_message := some message.params.head? }) with
        | Except.error e => Except.error e
        | Except.ok st3 => Except.ok ⟨st3, [(nick, p.2.1, p.2.2)], []⟩

/-- `IRCv3_1Support.on_raw_join` (ircv3_1.py lines 77–94).  The three-way
destructuring `channels, account, realname = message.params` raises
`ValueError` when the parameter count is not three. -/
def on_raw_join (st : ClientState) (message : Message) :
    Except PyError HandlerOut :=
  if capEnabled st "extended-join" = true then
    let p := parse_user message.source
    let nick := p.1
    match message.params with
    | [channels, account, realname] =>
      let st1 := _sync_user st nick p.2.1 p.2.2
      let fakemsg := _construct_message "JOIN" [channels] message.source
      let st2 := base_on_raw_join st1 fakemsg
      let acct : Option String := if account = NO_ACCOUNT then none else some account
      match setUserField st2 nick (fun u => { u with account := some acct }) with
      | Except.error e => Except.error e
      | Except.ok st3 =>
        match setUserField st3 nick (fun u => { u with realname := some (some realname) }) with
        | Except.error e => Except.error e
        | Except.ok st4 => Except.ok ⟨st4, [(nick, p.2.1, p.2.2)], [fakemsg]⟩
    | _ => Except.error PyError.valueError
  else
    Except.ok ⟨base_on_raw_join st message, [], [message]⟩

/-- The `account` entry of `self.users[nick]`: `none` if the nick is unknown,
`some a` with `a : Option (Option String)` the record's account field
otherwise. -/
def accountOf (st : ClientState) (nick : String) : Option (Option (Option String)) :=
  (alistGet st.users nick).map User.account

/-- The `realname` entry of `self.users[nick]`, like `accountOf`. -/
def realnameOf (st : ClientState) (nick : String) : Option (Option (Option String)) :=
  (alistGet st.users nick).map User.realname

/-- The `away` entry of `self.users[nick]`. -/
def awayOf (st : ClientState) (nick : String) : Option (Option Bool) :=
  (alistGet st.users nick).map User.away

/-- The `away_message` entry of `self.users[nick]`. -/
def awayMessageOf (st : ClientState) (nick : String) : Option (Option (Option String)) :=
  (alistGet st.users nick).map User.away_message

/-! ## Data model for `async.py` -/

/-- What one run of a Python callable produced: a value, or a raised
exception. -/
inductive CbResult (α : Type) where
  | ok (a : α)
  | raised (e : PyError)
deriving DecidableEq, Repr

/-- `except (GeneratorExit, asyncio.CancelledError)` — the exception classes
that `schedule_async`'s wrapper re-raises instead of swallowing
(async.py line 147). -/
def isCancellationSignal : PyError → Bool
  | PyError.generatorExit => true
  | PyError.cancelledError => true
  | _ => false

/-- How a task wrapped by `EventLoop.schedule_async` finished: it returned the
callback's value, it caught any non-cancellation exception and reported it via
`traceback.print_exc()`, or it re-raised a cancellation signal. -/
inductive TaskResult (α : Type) where
  | completed (a : α)
  | reported (e : PyError)
  | propagated (e : PyError)
deriving DecidableEq, Repr

/-- The `try`/`except` boundary of `EventLoop.schedule_async`'s `inner`
(async.py lines 144–150): cancellation signals are re-raised, every other
exception is caught and printed, a normal return passes through. -/
def schedule_async_wrap {α : Type} (r : CbResult α) : TaskResult α :=
  match r with
  | CbResult.ok a => TaskResult.completed a
  | CbResult.raised e =>
    if isCancellationSignal e then TaskResult.propagated e
    else TaskResult.reported e

/-- `EventLoop.schedule` (async.py lines 123–134): wrap the callback in a
coroutine that discards its value and funnel it through `schedule_async`. -/
def schedule_run {α : Type} (cb : Unit → CbResult α) : TaskResult Unit :=
  schedule_async_wrap
    (match cb () with
     | CbResult.ok _ => CbResult.ok ()
     | CbResult.raised e => CbResult.raised e)

/-- `EventLoop.schedule_in` (async.py lines 156–170): sleep for the delay
(time is not part of the pure model), run the callback, funnel through
`schedule_async`. -/
def schedule_in_run {α : Type} (delay : Nat) (cb : Unit → CbResult α) : TaskResult Unit :=
  schedule_run cb

/-- Evaluating the name `_when` inside `schedule_periodically`'s `inner`
(async.py line 201): the enclosing scopes bind `_interval`, `_callback`,
`_args` and `_kwargs`, but no `_when`, so the lookup raises `NameError`. -/
def periodic_sleep_arg : Except PyError Nat := Except.error PyError.nameError

/-- The `while True` loop of `EventLoop.schedule_periodically`'s `inner`
(async.py lines 199–204), run with `fuel` bounding the number of iterations.
Returns how many times `_callback` was invoked together with the loop body's
outcome.  Each iteration first evaluates `asyncio.sleep(_when)` — whose
argument is `periodic_sleep_arg` — then invokes the callback and stops when it
returns `False`. -/
def periodic_loop (fuel : Nat) (cb : Nat → CbResult Bool) (count : Nat) :
    Nat × CbResult Unit :=
  match fuel with
  | 0 => (count, CbResult.ok ())
  | Nat.succ fuel' =>
    match periodic_sleep_arg with
    | Except.error e => (count, CbResult.raised e)
    | Except.ok _ =>
      match cb count with
      | CbResult.raised e => (count + 1, CbResult.raised e)
      | CbResult.ok ret =>
        if ret = false then (count + 1, CbResult.ok ())
        else periodic_loop fuel' cb (count + 1)

/-- The `EventLoop` bookkeeping touched by `on_future`: the configured
timeout, the future-id → timeout-handle map `self._future_timeouts`, the task
list `self._tasks`, and a counter for fresh task handles. -/
structure LoopState where
  future_timeout : Nat
  future_timeouts : List (Nat × Nat)
  tasks : List Nat
  nextHandle : Nat
deriving DecidableEq, Repr

/-- What a call to `EventLoop.on_future` left behind: the mutated loop state,
the exception that escaped (if any), and whether the done callback was
attached to the future. -/
structure OnFutureOut where
  state : LoopState
  raised : Option PyError
  doneCallbackAttached : Bool
deriving DecidableEq, Repr

/-- `EventLoop.on_future` (async.py lines 98–104).  Line 103 schedules the
timeout handler through `schedule_in` (a fresh task handle) and stores it in
`self._future_timeouts[_future]`; line 104 then evaluates the name `future`,
which is unbound — the parameter is `_future` — so a `NameError` is raised and
`add_done_callback` is never reached. -/
def on_future (st : LoopState) (fut : Nat) : OnFutureOut :=
  let handle := st.nextHandle
  let st1 : LoopState :=
    { st with
      tasks := st.tasks ++ [handle],
      nextHandle := st.nextHandle + 1,
      future_timeouts := alistSet st.future_timeouts fut handle }
  { state := st1, raised := some PyError.nameError, doneCallbackAttached := false }

/-! ## Data model for `EventLoop.connect` and its proxy helper -/

/-- An `aiosocks` proxy address (`Socks5Addr` / `Socks4Addr`). -/
inductive ProxyAddr where
  | socks5Addr (host : String) (port : Nat)
  | socks4Addr (host : String) (port : Nat)
deriving DecidableEq, Repr

/-- An `aiosocks` credential object (`Socks5Auth` / `Socks4Auth`). -/
inductive ProxyAuth where
  | socks5Auth (user pass : String)
  | socks4Auth (user : String)
deriving DecidableEq, Repr

/-- The connection a successful `connect` / `_create_proxy_connection` call
describes: a direct `asyncio.open_connection`, or an `aiosocks` connection
through a proxy. -/
inductive Connection where
  | direct (host : String) (port : Nat) (tls : Bool)
  | proxied (addr : ProxyAddr) (auth : Option ProxyAuth) (dest : String × Nat)
deriving DecidableEq, Repr

/-- `EventLoop._create_proxy_connection` (async.py lines 71–96): version 5
selects SOCKS5 addressing with credentials only when both user and password
are given; version 4 selects SOCKS4 addressing with credentials when a user is
given; any other version raises `ValueError` ("Proxy version can only be 4 or
5"). -/
def _create_proxy_connection (dest : String × Nat) (proxy_host : String)
    (proxy_port : Nat) (proxy_user proxy_pass : Option String)
    (proxy_version : Nat) : Except PyError Connection :=
  if proxy_version = 5 then
    Except.ok (Connection.proxied (ProxyAddr.socks5Addr proxy_host proxy_port)
      (match proxy_user, proxy_pass with
       | some u, some p => some (ProxyAuth.socks5Auth u p)
       | _, _ => none) dest)
  else if proxy_version = 4 then
    Except.ok (Connection.proxied (ProxyAddr.socks4Addr proxy_host proxy_port)
      (match proxy_user with
       | some u => some (ProxyAuth.socks4Auth u)
       | none => none) dest)
  else
    Except.error PyError.valueError

/-- `EventLoop.connect` (async.py lines 45–69).  With no proxy host or port it
opens a direct connection.  Otherwise it calls
`self._create_proxy_connection(dest, proxy_host, proxy_port, proxy_user,
proxy_pass, **kwargs)` — five positional arguments for a method whose
signature requires six (`proxy_version` has no default), so the call itself
raises `TypeError` before any proxy-version check runs. -/
def connect (dest : String × Nat) (tls : Bool) (proxy_host : Option String)
    (proxy_port : Option Nat) (proxy_user proxy_pass : Option String)
    (proxy_version : Nat) : Except PyError Connection :=
  match proxy_host, proxy_port with
  | some _, some _ => Except.error PyError.typeError
  | _, _ => Except.ok (Connection.direct dest.1 dest.2 tls)

/-! ## Helper lemmas -/

/-- `_sync_user` rebinds the record under its own nick to the identity-updated
record, and leaves a missing nick missing. -/
theorem sync_user_get_self (st : ClientState) (nick : String)
    (user host : Option String) :
    alistGet (_sync_user st nick user host).users nick
      = (alistGet st.users nick).map
          (fun u => { u with username := some user, hostname := some host }) := by
  cases hget : alistGet st.users nick with
  | none => simp [_sync_user, hget]
  | some u => simp [_sync_user, hget, alistGet_set_self]

/-- After the base JOIN handler runs, the joining nickname has a record. -/
theorem base_join_contains (st : ClientState) (msg : Message) :
    alistContains (base_on_raw_join st msg).users (parse_user msg.source).1 = true := by
  by_cases h : alistContains st.users (parse_user msg.source).1 = true
  · simp [base_on_raw_join, h]
  · simp only [Bool.not_eq_true] at h
    simp [base_on_raw_join, h, alistContains_set_self]

/-! ## The claims -/

/-- Claim C1.  The claim states that `on_future(f, timeout, cb)` resolves the
future/timeout race so that `cb` runs exactly once.  The code cannot: line 104
of async.py reads the unbound name `future` (the parameter is `_future`), so
every registration raises `NameError` after scheduling the timeout task, and
the done callback is never attached to the future. -/
theorem on_future_registration_raises_name_error (st : LoopState) (fut : Nat) :
    (on_future st fut).raised = some PyError.nameError
  ∧ (on_future st fut).doneCallbackAttached = false
  ∧ (on_future st fut).state.tasks = st.tasks ++ [st.nextHandle] :=
  ⟨rfl, rfl, rfl⟩

/-- Claim C4.  The claim states that `schedule_periodically(interval, cb)`
invokes `cb` once per interval, first after one full interval.  The code
cannot: the loop body sleeps on the unbound name `_when` (the parameter is
`_interval`), so the first iteration raises `NameError`, the callback is never
invoked, and the task wrapper reports the error and the loop never re-arms. -/
theorem schedule_periodically_never_invokes_callback (fuel : Nat)
    (cb : Nat → CbResult Bool) :
    periodic_loop (fuel + 1) cb 0 = (0, CbResult.raised PyError.nameError)
  ∧ schedule_async_wrap (periodic_loop (fuel + 1) cb 0).2
      = TaskResult.reported PyError.nameError :=
  ⟨rfl, rfl⟩

/-- Claim C6.  The claim states that after `_create_user` the record has an
`account` field (bound to `None`) iff account-notify or extended-join is
enabled.  The code disagrees: its guard reads the misspelled attribute
`self._capabilites`, so whenever extended-join is present in the registry
(enabled or not) and account-notify is not enabled, `_create_user` raises
`AttributeError` instead of creating the record with a null account.  The
remaining branches behave as claimed. -/
theorem create_user_attribute_error :
    _create_user ⟨[("extended-join", true)], []⟩ "somenick"
      = Except.error PyError.attributeError
  ∧ _create_user ⟨[("extended-join", false)], []⟩ "somenick"
      = Except.error PyError.attributeError
  ∧ _create_user ⟨[("account-notify", true)], []⟩ "somenick"
      = Except.ok ⟨[("account-notify", true)], [("somenick", { account := some none })]⟩
  ∧ _create_user ⟨[], []⟩ "somenick" = Except.ok ⟨[], [("somenick", {})]⟩ := by
  refine ⟨by decide, by decide, by decide, by decide⟩

/-- Claim C7.  The claim states that a `connect` with a proxy version other
than 4 or 5 fails with a `ConfigurationError`.  The code disagrees twice:
`connect` calls `_create_proxy_connection` with five positional arguments for
a six-parameter signature, so every proxied `connect` raises `TypeError`
before any version check; and the version check itself (reached only by
calling `_create_proxy_connection` directly) raises `ValueError`, not
`ConfigurationError`.  The version-4/5 addressing and credential selection do
behave as claimed. -/
theorem connect_proxy_errors :
    connect ("irc.example.com", 6667) false (some "proxyhost") (some 1080) none none 3
      = Except.error PyError.typeError
  ∧ _create_proxy_connection ("irc.example.com", 6667) "proxyhost" 1080 none none 3
      = Except.error PyError.valueError
  ∧ _create_proxy_connection ("irc.example.com", 6667) "proxyhost" 1080
        (some "u") (some "p") 5
      = Except.ok (Connection.proxied (ProxyAddr.socks5Addr "proxyhost" 1080)
          (some (ProxyAuth.socks5Auth "u" "p")) ("irc.example.com", 6667))
  ∧ _create_proxy_connection ("irc.example.com", 6667) "proxyhost" 1080 none none 5
      = Except.ok (Connection.proxied (ProxyAddr.socks5Addr "proxyhost" 1080)
          none ("irc.example.com", 6667))
  ∧ _create_proxy_connection ("irc.example.com", 6667) "proxyhost" 1080
        (some "u") none 4
      = Except.ok (Connection.proxied (ProxyAddr.socks4Addr "proxyhost" 1080)
          (some (ProxyAuth.socks4Auth "u")) ("irc.example.com", 6667)) := by
  refine ⟨rfl, rfl, rfl, rfl, rfl⟩

/-- Claim C8.  A cancellation signal (`GeneratorExit` or
`asyncio.CancelledError`) raised inside a scheduled callback is re-raised out
of the task wrapper; any other uncaught error is caught at the task boundary
and reported, never propagated.  This holds for `schedule_async`'s wrapper and
hence for `schedule` and `schedule_in`, which funnel through it. -/
theorem scheduled_callback_error_boundary (e : PyError) (cb : Unit → CbResult Unit)
    (hraise : cb () = CbResult.raised e) :
    (isCancellationSignal e = true →
      schedule_run cb = TaskResult.propagated e
        ∧ schedule_async_wrap (CbResult.raised e : CbResult Unit)
            = TaskResult.propagated e)
  ∧ (isCancellationSignal e = false →
      schedule_run cb = TaskResult.reported e
        ∧ schedule_async_wrap (CbResult.raised e : CbResult Unit)
            = TaskResult.reported e)
  ∧ schedule_in_run 5 cb = schedule_run cb := by
  refine ⟨?_, ?_, rfl⟩
  · intro hc
    constructor
    · simp [schedule_run, hraise, schedule_async_wrap, hc]
    · simp [schedule_async_wrap, hc]
  · intro hc
    constructor
    · simp [schedule_run, hraise, schedule_async_wrap, hc]
    · simp [schedule_async_wrap, hc]

/-- Witness for C8: a callback raising `CancelledError` propagates; one raising
`ValueError` is reported. -/
theorem scheduled_callback_error_boundary_witness :
    schedule_run (fun _ => (CbResult.raised PyError.cancelledError : CbResult Unit))
      = TaskResult.propagated PyError.cancelledError
  ∧ schedule_run (fun _ => (CbResult.raised PyError.valueError : CbResult Unit))
      = TaskResult.reported PyError.valueError :=
  ⟨((scheduled_callback_error_boundary PyError.cancelledError _ rfl).1 rfl).1,
   ((scheduled_callback_error_boundary PyError.valueError _ rfl).2.1 rfl).1⟩

/-- Claim C2.  With account-notify enabled and the source nick known, an
`ACCOUNT` message sets the user's `account` field to null when the parameter
is the `"*"` sentinel and to the literal parameter otherwise; with the
capability not enabled (absent or false), the handler returns with the state
untouched, so an absent `account` field stays absent. -/
theorem on_raw_account_capability_gated (st : ClientState) (msg : Message)
    (a : String) (rest : List String) (hps : msg.params = a :: rest) :
    (capEnabled st "account-notify" = false →
      on_raw_account st msg = Except.ok ⟨st, [], []⟩)
  ∧ (capEnabled st "account-notify" = true →
     alistContains st.users (parse_user msg.source).1 = true →
     (on_raw_account st msg).map
         (fun out => accountOf out.state (parse_user msg.source).1)
       = Except.ok (some (some (if a = NO_ACCOUNT then none else some a)))) := by
  constructor
  · intro hcap
    simp [on_raw_account, hcap]
  · intro hcap hnick
    obtain ⟨u, hu⟩ := alistContains_get _ _ hnick
    have hsync := sync_user_get_self st (parse_user msg.source).1
      (parse_user msg.source).2.1 (parse_user msg.source).2.2
    rw [hu] at hsync
    simp [on_raw_account, hcap, hps, hnick, setUserField, hsync, accountOf,
      alistGet_set_self, Except.map]

/-- Witness for C2: a disabled registry leaves the state untouched; an enabled
one maps the `"*"` sentinel to a null account. -/
theorem on_raw_account_capability_gated_witness :
    on_raw_account ⟨[], [("nick", {})]⟩ ⟨"nick!u@h", "ACCOUNT", ["acct"]⟩
      = Except.ok ⟨⟨[], [("nick", {})]⟩, [], []⟩
  ∧ (on_raw_account ⟨[("account-notify", true)], [("nick", {})]⟩
        ⟨"nick!u@h", "ACCOUNT", ["*"]⟩).map
      (fun out => accountOf out.state (parse_user "nick!u@h").1)
      = Except.ok (some (some (if "*" = NO_ACCOUNT then none else some "*"))) :=
  ⟨(on_raw_account_capability_gated ⟨[], [("nick", {})]⟩
      ⟨"nick!u@h", "ACCOUNT", ["acct"]⟩ "acct" [] rfl).1 (by decide),
   (on_raw_account_capability_gated ⟨[("account-notify", true)], [("nick", {})]⟩
      ⟨"nick!u@h", "ACCOUNT", ["*"]⟩ "*" [] rfl).2 (by decide) (by decide)⟩

/-- Claim C5.  With away-notify enabled and the source nick known, an `AWAY`
message sets the user's `away` field to true exactly when the parameter list
is non-empty, and `away_message` to the first parameter when present and to
null when the list is empty. -/
theorem on_raw_away_sets_away_fields (st : ClientState) (msg : Message)
    (hcap : capEnabled st "away-notify" = true)
    (hnick : alistContains st.users (parse_user msg.source).1 = true) :
    (on_raw_away st msg).map
        (fun out => (awayOf out.state (parse_user msg.source).1,
                     awayMessageOf out.state (parse_user msg.source).1))
      = Except.ok (some (some (decide (0 < msg.params.length))),
                   some (some msg.params.head?)) := by
  obtain ⟨u, hu⟩ := alistContains_get _ _ hnick
  have hsync := sync_user_get_self st (parse_user msg.source).1
    (parse_user msg.source).2.1 (parse_user msg.source).2.2
  rw [hu] at hsync
  simp [on_raw_away, hcap, hnick, setUserField, hsync, awayOf, awayMessageOf,
    alistGet_set_self, Except.map]

/-- Witness for C5: an `AWAY` with no parameters yields `away = false`,
`away_message = None`; one with a parameter yields `away = true` and that
parameter as the message. -/
theorem on_raw_away_sets_away_fields_witness :
    (on_raw_away ⟨[("away-notify", true)], [("nick", {})]⟩
        ⟨"nick!u@h", "AWAY", []⟩).map
      (fun out => (awayOf out.state (parse_user "nick!u@h").1,
                   awayMessageOf out.state (parse_user "nick!u@h").1))
      = Except.ok (some (some false), some (some none))
  ∧ (on_raw_away ⟨[("away-notify", true)], [("nick", {})]⟩
        ⟨"nick!u@h", "AWAY", ["brb"]⟩).map
      (fun out => (awayOf out.state (parse_user "nick!u@h").1,
                   awayMessageOf out.state (parse_user "nick!u@h").1))
      = Except.ok (some (some true), some (some (some "brb"))) :=
  ⟨on_raw_away_sets_away_fields ⟨[("away-notify", true)], [("nick", {})]⟩
      ⟨"nick!u@h", "AWAY", []⟩ (by decide) (by decide),
   on_raw_away_sets_away_fields ⟨[("away-notify", true)], [("nick", {})]⟩
      ⟨"nick!u@h", "AWAY", ["brb"]⟩ (by decide) (by decide)⟩

/-- Counterexample to claim C9 as stated.  The claim says every `ACCOUNT`
message with an unknown source nick makes the handler return before any
mutation; but the handler reads `params[0]` (ircv3_1.py line 54) before its
nick guard (line 56), so an `ACCOUNT` message with no parameters and
account-notify enabled raises `IndexError` instead of returning. -/
theorem on_raw_account_unknown_nick_empty_params_counterexample :
    on_raw_account ⟨[("account-notify", true)], []⟩ ⟨"ghost!u@h", "ACCOUNT", []⟩
      = Except.error PyError.indexError := by
  decide

/-- Claim C9, amended.  An `AWAY` message whose parsed source nick has no
record makes the handler return with the directory untouched, no `_sync_user`
resync and no delegation, whatever the registry holds and whatever the
parameter count.  An `ACCOUNT` message with an unknown nick does the same when
its parameter list is non-empty; with an empty parameter list it returns
unchanged when account-notify is not enabled, and raises `IndexError` at the
`params[0]` read when it is — in every case the directory is left entirely
unchanged and no resync occurs. -/
theorem handlers_unknown_nick_frame_amended (st : ClientState) (msg : Message)
    (hnick : alistContains st.users (parse_user msg.source).1 = false) :
    on_raw_away st msg = Except.ok ⟨st, [], []⟩
  ∧ (msg.params ≠ [] → on_raw_account st msg = Except.ok ⟨st, [], []⟩)
  ∧ (msg.params = [] → capEnabled st "account-notify" = true →
       on_raw_account st msg = Except.error PyError.indexError)
  ∧ (msg.params = [] → capEnabled st "account-notify" = false →
       on_raw_account st msg = Except.ok ⟨st, [], []⟩) := by
  refine ⟨?_, ?_, ?_, ?_⟩
  · by_cases hcap : capEnabled st "away-notify" = false
    · simp [on_raw_away, hcap]
    · simp only [Bool.not_eq_false] at hcap
      simp [on_raw_away, hcap, hnick]
  · intro hps
    by_cases hcap : capEnabled st "account-notify" = false
    · simp [on_raw_account, hcap]
    · simp only [Bool.not_eq_false] at hcap
      cases hp : msg.params with
      | nil => exact absurd hp hps
      | cons a rest => simp [on_raw_account, hcap, hp, hnick]
  · intro hp hcap
    simp [on_raw_account, hcap, hp]
  · intro hp hcap
    simp [on_raw_account, hcap]

/-- Witness for the amended C9: a zero-parameter `AWAY` with away-notify
enabled and an unknown nick returns the state unchanged, as does a
one-parameter `ACCOUNT` with account-notify enabled, and a zero-parameter
`ACCOUNT` raises `IndexError` when account-notify is enabled. -/
theorem handlers_unknown_nick_frame_amended_witness :
    on_raw_away ⟨[("away-notify", true)], []⟩ ⟨"ghost!u@h", "AWAY", []⟩
      = Except.ok ⟨⟨[("away-notify", true)], []⟩, [], []⟩
  ∧ on_raw_account ⟨[("account-notify", true)], []⟩ ⟨"ghost!u@h", "ACCOUNT", ["acct"]⟩
      = Except.ok ⟨⟨[("account-notify", true)], []⟩, [], []⟩
  ∧ on_raw_account ⟨[("account-notify", true)], []⟩ ⟨"spook!u@h", "ACCOUNT", []⟩
      = Except.error PyError.indexError :=
  ⟨(handlers_unknown_nick_frame_amended ⟨[("away-notify", true)], []⟩
      ⟨"ghost!u@h", "AWAY", []⟩ (by decide)).1,
   (handlers_unknown_nick_frame_amended ⟨[("account-notify", true)], []⟩
      ⟨"ghost!u@h", "ACCOUNT", ["acct"]⟩ (by decide)).2.1 (by decide),
   (handlers_unknown_nick_frame_amended ⟨[("account-notify", true)], []⟩
      ⟨"spook!u@h", "ACCOUNT", []⟩ (by decide)).2.2.1 rfl (by decide)⟩

/-- Claim C10.  With extended-join enabled, a JOIN whose parameter count is
not three fails the three-way destructuring with `ValueError`, before any
user-record mutation or delegation (the handler returns no new state and an
empty delegation). -/
theorem on_raw_join_bad_arity_value_error (st : ClientState) (msg : Message)
    (hcap : capEnabled st "extended-join" = true)
    (hlen : msg.params.length ≠ 3) :
    on_raw_join st msg = Except.error PyError.valueError := by
  cases hp : msg.params with
  | nil => simp [on_raw_join, hcap, hp]
  | cons x xs =>
    cases xs with
    | nil => simp [on_raw_join, hcap, hp]
    | cons y ys =>
      cases ys with
      | nil => simp [on_raw_join, hcap, hp]
      | cons z zs =>
        cases zs with
        | nil => rw [hp] at hlen; simp at hlen
        | cons w ws => simp [on_raw_join, hcap, hp]

/-- Witness for C10: a two-parameter JOIN under extended-join raises
`ValueError`. -/
theorem on_raw_join_bad_arity_value_error_witness :
    on_raw_join ⟨[("extended-join", true)], []⟩ ⟨"nick!u@h", "JOIN", ["#chan", "acct"]⟩
      = Except.error PyError.valueError :=
  on_raw_join_bad_arity_value_error ⟨[("extended-join", true)], []⟩
    ⟨"nick!u@h", "JOIN", ["#chan", "acct"]⟩ (by decide) (by decide)

/-- Claim C3.  With extended-join enabled, a three-parameter JOIN is delegated
to the base handler as a synthesized message whose only parameter is the
channel list, and afterwards the user record's `account` is the account
parameter (null for the `"*"` sentinel) and `realname` is the realname
parameter; with the capability not enabled, the original message is delegated
unchanged. -/
theorem on_raw_join_extended_join_transform (st : ClientState) (msg : Message)
    (c a r : String) (hps : msg.params = [c, a, r]) :
    (capEnabled st "extended-join" = true →
      (on_raw_join st msg).map
          (fun out => (out.delegated,
                       accountOf out.state (parse_user msg.source).1,
                       realnameOf out.state (parse_user msg.source).1))
        = Except.ok ([{ source := msg.source, command := "JOIN", params := [c] }],
            some (some (if a = NO_ACCOUNT then none else some a)),
            some (some (some r))))
  ∧ (capEnabled st "extended-join" = false →
      on_raw_join st msg = Except.ok ⟨base_on_raw_join st msg, [], [msg]⟩) := by
  constructor
  · intro hcap
    have hcont := base_join_contains
      (_sync_user st (parse_user msg.source).1
        (parse_user msg.source).2.1 (parse_user msg.source).2.2)
      (_construct_message "JOIN" [c] msg.source)
    obtain ⟨u, hu⟩ := alistContains_get _ _ hcont
    simp only [_construct_message] at hu
    simp [on_raw_join, hcap, hps, setUserField, hu, accountOf, realnameOf,
      alistGet_set_self, Except.map, _construct_message]
  · intro hcap
    simp [on_raw_join, hcap]

/-- Witness for C3: an enabled extended-join transforms a three-parameter JOIN
with the `"*"` sentinel; a disabled one delegates the message unchanged. -/
theorem on_raw_join_extended_join_transform_witness :
    (on_raw_join ⟨[("extended-join", true)], []⟩
        ⟨"nick!u@h", "JOIN", ["#chan", "*", "Name"]⟩).map
      (fun out => (out.delegated,
                   accountOf out.state (parse_user "nick!u@h").1,
                   realnameOf out.state (parse_user "nick!u@h").1))
      = Except.ok ([{ source := "nick!u@h", command := "JOIN", params := ["#chan"] }],
          some (some (if "*" = NO_ACCOUNT then none else some "*")),
          some (some (some "Name")))
  ∧ on_raw_join ⟨[], []⟩ ⟨"nick!u@h", "JOIN", ["#chan", "myacct", "My Real Name"]⟩
      = Except.ok ⟨base_on_raw_join ⟨[], []⟩
          ⟨"nick!u@h", "JOIN", ["#chan", "myacct", "My Real Name"]⟩, [],
          [⟨"nick!u@h", "JOIN", ["#chan", "myacct", "My Real Name"]⟩]⟩ :=
  ⟨(on_raw_join_extended_join_transform ⟨[("extended-join", true)], []⟩
      ⟨"nick!u@h", "JOIN", ["#chan", "*", "Name"]⟩ "#chan" "*" "Name" rfl).1 (by decide),
   (on_raw_join_extended_join_transform ⟨[], []⟩
      ⟨"nick!u@h", "JOIN", ["#chan", "myacct", "My Real Name"]⟩
      "#chan" "myacct" "My Real Name" rfl).2 (by decide)⟩

end Pydle
